import Mathlib

/-!
Shallow embedding of the airio-core transport/upgrade pipeline
(crate `airio-core`, files `src/transport.rs`, `src/transport/map.rs`,
`src/transport/map_err.rs`, `src/transport/and_then.rs`,
`src/transport/upgrade.rs`, `src/upgrade/apply.rs`, `src/upgrade/select.rs`,
`src/upgrade/error.rs`, `src/either.rs`, `src/connection.rs`).

Rust futures are modelled by explicit state passing: a state machine's
`poll` is a pure function from the state to a `Poll` outcome paired with
the successor state.  Inner futures of the external collaborators (the
stream-select negotiator, the inner transport's dialer) are modelled by
`MFut`, a future that is pending for a fixed number of polls and then
ready with its result; generic inner futures of the combinators are
modelled by an abstract state type together with its poll function, the
analogue of the Rust impl being generic over `TryFuture`.  A Rust `panic!`
or `.expect(..)` is modelled as the `Except.error` alternative of the poll
result, carrying the panic message.
-/

namespace Airio

/-- Model of `std::task::Poll`. -/
inductive Poll (α : Type) where
  | pending : Poll α
  | ready (a : α) : Poll α

/-- Model of an external future: it returns `pending` for `pendings`
polls and then `ready result`.  This realises all outcomes a `TryFuture`
can show to a single poller. -/
structure MFut (α : Type) where
  pendings : Nat
  result : α

/-- Polling an `MFut`: count down the pendings, then yield the result. -/
def MFut.poll {α : Type} (f : MFut α) : Poll α × MFut α :=
  match f with
  | ⟨0, r⟩ => (Poll.ready r, ⟨0, r⟩)
  | ⟨Nat.succ n, r⟩ => (Poll.pending, ⟨n, r⟩)

/-- Model of `either::Either` (and of `futures::future::Either`, which is
the same tagged sum at this level of abstraction). -/
inductive Either (α β : Type) where
  | left (a : α) : Either α β
  | right (b : β) : Either α β

/-- Model of `futures::TryFutureExt::map_err` applied to an `MFut`
future with a `Result` value: the error channel is mapped when the
future resolves, the pendings and the success channel are untouched
(file `src/transport/map_err.rs` uses it on dialer and upgrade futures,
`src/transport.rs` in `ListenerEvent::map_upgrade_err`). -/
def MFut.map_err {E E2 α : Type} (f : E → E2) (m : MFut (Except E α)) :
    MFut (Except E2 α) :=
  ⟨m.pendings, m.result.mapError f⟩

/-- Model of `EitherFuture` from `src/either.rs`. -/
inductive EitherFuture (A B : Type) where
  | left (a : A) : EitherFuture A B
  | right (b : B) : EitherFuture A B

/-- Poll of `EitherFuture` (`src/either.rs`): delegate to the inner
future of the constructed variant, tagging the success value and the
error with the variant's side.  The inner futures are abstract; their
poll functions `pa`, `pb` are passed explicitly, mirroring the Rust impl
being generic over two `TryFuture`s. -/
def EitherFuture.poll {FA FB EA EB OA OB : Type}
    (pa : FA → Poll (Except EA OA) × FA) (pb : FB → Poll (Except EB OB) × FB) :
    EitherFuture FA FB →
      Poll (Except (Either EA EB) (Either OA OB)) × EitherFuture FA FB
  | .left a =>
    match pa a with
    | (Poll.pending, a2) => (Poll.pending, .left a2)
    | (Poll.ready (Except.ok v), a2) =>
      (Poll.ready (Except.ok (Either.left v)), .left a2)
    | (Poll.ready (Except.error e), a2) =>
      (Poll.ready (Except.error (Either.left e)), .left a2)
  | .right b =>
    match pb b with
    | (Poll.pending, b2) => (Poll.pending, .right b2)
    | (Poll.ready (Except.ok v), b2) =>
      (Poll.ready (Except.ok (Either.right v)), .right b2)
    | (Poll.ready (Except.error e), b2) =>
      (Poll.ready (Except.error (Either.right e)), .right b2)

/-- Socket addresses are opaque to the combinators; model them as `Nat`. -/
abbrev SocketAddr := Nat

/-- Model of `Endpoint` from `src/connection.rs`. -/
inductive Endpoint where
  | dialer : Endpoint
  | listener : Endpoint

/-- Endpoint.is_dialer from `src/connection.rs`. -/
def Endpoint.is_dialer : Endpoint → Bool
  | .dialer => true
  | .listener => false

/-- Endpoint.is_listener from `src/connection.rs`. -/
def Endpoint.is_listener : Endpoint → Bool
  | .dialer => false
  | .listener => true

/-- Model of `ConnectedPoint` from `src/connection.rs`. -/
inductive ConnectedPoint where
  | dialer (addr : SocketAddr) : ConnectedPoint
  | listener (local_addr remote_addr : SocketAddr) : ConnectedPoint

/-- ConnectedPoint.is_dialer from `src/connection.rs`. -/
def ConnectedPoint.is_dialer : ConnectedPoint → Bool
  | .dialer _ => true
  | .listener _ _ => false

/-- ConnectedPoint.is_listener from `src/connection.rs`. -/
def ConnectedPoint.is_listener : ConnectedPoint → Bool
  | .dialer _ => false
  | .listener _ _ => true

/-- Model of `ListenerEvent<T, E>` from `src/transport.rs`. -/
inductive ListenerEvent (T E : Type) where
  | listened (addr : SocketAddr) : ListenerEvent T E
  | incoming (local_addr remote_addr : SocketAddr) (upgrade : T) :
      ListenerEvent T E
  | closed (result : Except E Unit) : ListenerEvent T E
  | error (e : E) : ListenerEvent T E

/-- ListenerEvent::map_upgrade from `src/transport.rs`. -/
def ListenerEvent.map_upgrade {T T2 E : Type} (f : T → T2) :
    ListenerEvent T E → ListenerEvent T2 E
  | .listened addr => .listened addr
  | .incoming local_addr remote_addr upgrade =>
      .incoming local_addr remote_addr (f upgrade)
  | .closed result => .closed result
  | .error e => .error e

/-- ListenerEvent::map_err from `src/transport.rs`. -/
def ListenerEvent.map_err {T E E2 : Type} (f : E → E2) :
    ListenerEvent T E → ListenerEvent T E2
  | .listened addr => .listened addr
  | .incoming local_addr remote_addr upgrade =>
      .incoming local_addr remote_addr upgrade
  | .closed result => .closed (result.mapError f)
  | .error e => .error (f e)

/-- ListenerEvent::map_upgrade_err from `src/transport.rs`: the upgrade
future's error channel is wrapped with `futures::future::MapErr`; the
event's own error parameter, `Closed` and `Error` payloads are untouched. -/
def ListenerEvent.map_upgrade_err {E E2 α : Type} (f : E → E2) :
    ListenerEvent (MFut (Except E α)) E → ListenerEvent (MFut (Except E2 α)) E
  | .listened addr => .listened addr
  | .incoming local_addr remote_addr upgrade =>
      .incoming local_addr remote_addr (upgrade.map_err f)
  | .closed result => .closed result
  | .error e => .error e

/-- Model of `airio_stream_select::NegotiationError`, opaque to the core
(consumed interface; the claims never inspect its structure). -/
structure NegotiationError where
  code : Nat

/-- Model of `PeerId`, opaque to the pipeline (only threaded through). -/
structure PeerId where
  id : Nat

/-- Model of `UpgradeError<E>` from `src/upgrade/error.rs`. -/
inductive UpgradeError (E : Type) where
  | select (e : NegotiationError) : UpgradeError E
  | apply (e : E) : UpgradeError E

/-- Model of the `Upgrade` trait from `src/upgrade.rs`: a protocol-info
list (the `UpgradeInfo` part) and the two entrypoints, each returning a
value of the associated future type `Fut`.  `Output` and `Error` are the
associated output and error types that `Fut` resolves with; the string
conversion of `Info` (its `AsRef<str>` bound) and the poll function of
`Fut` are passed separately to the functions that need them. -/
structure UpgradeM (Info Conn Output Error Fut : Type) where
  protocol_info : List Info
  upgrade_inbound : Conn → Info → Fut
  upgrade_outbound : Conn → Info → Fut

/-- Model of `SelectUpgrade::new(a, b)` seen through its `UpgradeInfo`
and `Upgrade` impls (`src/upgrade/select.rs`): the info list is `a`'s
tokens tagged left followed by `b`'s tokens tagged right, and each
entrypoint dispatches on the tag of the negotiated info, tagging the
returned future with the same side. -/
def selectUpgrade {IA IB Conn OA OB EA EB FA FB : Type}
    (a : UpgradeM IA Conn OA EA FA) (b : UpgradeM IB Conn OB EB FB) :
    UpgradeM (Either IA IB) Conn (Either OA OB) (Either EA EB)
      (EitherFuture FA FB) where
  protocol_info :=
    a.protocol_info.map Either.left ++ b.protocol_info.map Either.right
  upgrade_inbound := fun stream info =>
    match info with
    | Either.left i => EitherFuture.left (a.upgrade_inbound stream i)
    | Either.right i => EitherFuture.right (b.upgrade_inbound stream i)
  upgrade_outbound := fun stream info =>
    match info with
    | Either.left i => EitherFuture.left (a.upgrade_outbound stream i)
    | Either.right i => EitherFuture.right (b.upgrade_outbound stream i)

/-- Model of `UpgradeApplyState` from `src/upgrade/apply.rs`.  The
negotiator futures (`DialerSelectFuture`, `ListenerSelectFuture`) are
external collaborators and are modelled as `MFut` futures resolving with
`Result<(Info, Negotiated<C>), NegotiationError>`; `Negotiated<C>` is
byte-transparent and modelled as `Conn` itself. -/
inductive UpgradeApplyState (Info Conn Output Error Fut : Type) where
  | listenerInit (future : MFut (Except NegotiationError (Info × Conn)))
      (upgrade : UpgradeM Info Conn Output Error Fut) :
      UpgradeApplyState Info Conn Output Error Fut
  | dialerInit (future : MFut (Except NegotiationError (Info × Conn)))
      (upgrade : UpgradeM Info Conn Output Error Fut) :
      UpgradeApplyState Info Conn Output Error Fut
  | upgrade (future : Fut) (name : String) :
      UpgradeApplyState Info Conn Output Error Fut
  | undefined : UpgradeApplyState Info Conn Output Error Fut

/-- UpgradeApply::new_outbound from `src/upgrade/apply.rs`.  The
`DialerSelectFuture::new` constructor of the stream-select collaborator
is the parameter `mk`. -/
def UpgradeApply.new_outbound {Info Conn Output Error Fut : Type}
    (mk : Conn → List Info → MFut (Except NegotiationError (Info × Conn)))
    (conn : Conn) (u : UpgradeM Info Conn Output Error Fut) :
    UpgradeApplyState Info Conn Output Error Fut :=
  .dialerInit (mk conn u.protocol_info) u

/-- UpgradeApply::new_inbound from `src/upgrade/apply.rs`, with the
`ListenerSelectFuture::new` constructor passed as `mk`. -/
def UpgradeApply.new_inbound {Info Conn Output Error Fut : Type}
    (mk : Conn → List Info → MFut (Except NegotiationError (Info × Conn)))
    (conn : Conn) (u : UpgradeM Info Conn Output Error Fut) :
    UpgradeApplyState Info Conn Output Error Fut :=
  .listenerInit (mk conn u.protocol_info) u

/-- The `UpgradeApplyState::Upgrade` arm of the `loop` in
`UpgradeApply::poll` (`src/upgrade/apply.rs`): poll the upgrade future;
on Pending restore the state, on Ok return the value, on Err return
`UpgradeError::Apply`.  Both Ready returns leave the state at the
`Undefined` value installed by the `mem::replace` at the top of the loop. -/
def UpgradeApply.pollUpgrade {Info Conn Output Error Fut : Type}
    (pollF : Fut → Poll (Except Error Output) × Fut)
    (future : Fut) (name : String) :
    Poll (Except (UpgradeError Error) Output) ×
      UpgradeApplyState Info Conn Output Error Fut :=
  match pollF future with
  | (Poll.pending, f2) => (Poll.pending, .upgrade f2 name)
  | (Poll.ready (Except.ok x), _) => (Poll.ready (Except.ok x), .undefined)
  | (Poll.ready (Except.error e), _) =>
    (Poll.ready (Except.error (UpgradeError.apply e)), .undefined)

/-- UpgradeApply::poll from `src/upgrade/apply.rs`.  The Rust body is a
`loop`; an init arm that sees a Ready(Ok) negotiation installs the
`Upgrade` state and re-runs the loop, whose `Upgrade` arm always
returns, so the loop is realised by falling through to `pollUpgrade`.
A Ready return of the negotiator error (the `?` operator) converts it
with `UpgradeError::Select` and leaves the state `Undefined`; entering
the match with `Undefined` is the `panic!` arm. -/
def UpgradeApply.poll {Info Conn Output Error Fut : Type}
    (toStr : Info → String)
    (pollF : Fut → Poll (Except Error Output) × Fut) :
    UpgradeApplyState Info Conn Output Error Fut →
      Except String (Poll (Except (UpgradeError Error) Output) ×
        UpgradeApplyState Info Conn Output Error Fut)
  | .dialerInit future u =>
    match MFut.poll future with
    | (Poll.pending, f2) => Except.ok (Poll.pending, .dialerInit f2 u)
    | (Poll.ready (Except.error e), _) =>
      Except.ok (Poll.ready (Except.error (UpgradeError.select e)), .undefined)
    | (Poll.ready (Except.ok (info, conn)), _) =>
      Except.ok
        (UpgradeApply.pollUpgrade pollF (u.upgrade_outbound conn info)
          (toStr info))
  | .listenerInit future u =>
    match MFut.poll future with
    | (Poll.pending, f2) => Except.ok (Poll.pending, .listenerInit f2 u)
    | (Poll.ready (Except.error e), _) =>
      Except.ok (Poll.ready (Except.error (UpgradeError.select e)), .undefined)
    | (Poll.ready (Except.ok (info, conn)), _) =>
      Except.ok
        (UpgradeApply.pollUpgrade pollF (u.upgrade_inbound conn info)
          (toStr info))
  | .upgrade future name => Except.ok (UpgradeApply.pollUpgrade pollF future name)
  | .undefined => Except.error "Invalid state in UpgradeApply"

/-- Model of the `Transport` trait from `src/transport.rs`: `connect`
returns a dialer future (of abstract state type `DFut`) or fails
synchronously; `listen` returns the listener stream, modelled as the
list of `ListenerEvent`s it yields in order, or fails synchronously.
`O` is the associated `Output` type the futures resolve with. -/
structure TransportM (O E DFut UFut : Type) where
  connect : SocketAddr → Except E DFut
  listen : SocketAddr → Except E (List (ListenerEvent UFut E))

/-- Model of `MapFuture<T, F>` from `src/transport/map.rs`: the inner
future plus the `Option`-held map function and `ConnectedPoint`. -/
structure MapFuture (T F : Type) where
  inner : T
  args : Option (F × ConnectedPoint)

/-- MapFuture::poll from `src/transport/map.rs`: poll the inner future;
Pending and Err pass through with `args` untouched; on Ok the args are
taken (the `.expect` panics with "MapFuture has already finished." when
they are gone) and the mapped value is returned. -/
def MapFuture.poll {T E A B : Type}
    (pollInner : T → Poll (Except E A) × T)
    (self : MapFuture T (A → ConnectedPoint → B)) :
    Except String (Poll (Except E B) × MapFuture T (A → ConnectedPoint → B)) :=
  match pollInner self.inner with
  | (Poll.pending, t2) => Except.ok (Poll.pending, ⟨t2, self.args⟩)
  | (Poll.ready (Except.error e), t2) =>
    Except.ok (Poll.ready (Except.error e), ⟨t2, self.args⟩)
  | (Poll.ready (Except.ok v), t2) =>
    match self.args with
    | none => Except.error "MapFuture has already finished."
    | some (f, a) => Except.ok (Poll.ready (Except.ok (f v a)), ⟨t2, none⟩)

/-- Map::connect from `src/transport/map.rs`: delegate to the inner
transport, then pair the dialer with the map function and the
`ConnectedPoint::Dialer` fixed at connect time. -/
def Map.connect {O O2 E DFut UFut : Type}
    (t : TransportM O E DFut UFut) (f : O → ConnectedPoint → O2)
    (addr : SocketAddr) :
    Except E (MapFuture DFut (O → ConnectedPoint → O2)) :=
  match t.connect addr with
  | Except.error e => Except.error e
  | Except.ok d => Except.ok ⟨d, some (f, ConnectedPoint.dialer addr)⟩

/-- The per-event transform of `MapListener::poll_next` from
`src/transport/map.rs`: `Incoming` upgrades are wrapped with the map
function and the `ConnectedPoint::Listener` of the event's addresses;
every other event passes through unchanged. -/
def Map.onEvent {O O2 E UFut : Type} (f : O → ConnectedPoint → O2) :
    ListenerEvent UFut E →
      ListenerEvent (MapFuture UFut (O → ConnectedPoint → O2)) E
  | .listened addr => .listened addr
  | .incoming local_addr remote_addr upgrade =>
      .incoming local_addr remote_addr
        ⟨upgrade, some (f, ConnectedPoint.listener local_addr remote_addr)⟩
  | .closed result => .closed result
  | .error e => .error e

/-- Map::listen from `src/transport/map.rs`, with `MapListener`
transforming each event of the inner stream by `Map.onEvent`. -/
def Map.listen {O O2 E DFut UFut : Type}
    (t : TransportM O E DFut UFut) (f : O → ConnectedPoint → O2)
    (addr : SocketAddr) :
    Except E (List (ListenerEvent
      (MapFuture UFut (O → ConnectedPoint → O2)) E)) :=
  match t.listen addr with
  | Except.error e => Except.error e
  | Except.ok evs => Except.ok (evs.map (Map.onEvent f))

/-- MapErr::connect from `src/transport/map_err.rs`: a synchronous
failure is mapped with `f`; a returned dialer has its error channel
mapped with `futures::TryFutureExt::map_err`. -/
def MapErr.connect {O E E2 UFut : Type}
    (t : TransportM O E (MFut (Except E O)) UFut) (f : E → E2)
    (addr : SocketAddr) : Except E2 (MFut (Except E2 O)) :=
  match t.connect addr with
  | Except.error e => Except.error (f e)
  | Except.ok d => Except.ok (d.map_err f)

/-- The per-event transform of `MapErrListener::poll_next` from
`src/transport/map_err.rs`: each event is passed through
`map_upgrade_err` and then `map_err`, both with the same function. -/
def MapErr.onEvent {O E E2 : Type} (f : E → E2)
    (ev : ListenerEvent (MFut (Except E O)) E) :
    ListenerEvent (MFut (Except E2 O)) E2 :=
  (ev.map_upgrade_err f).map_err f

/-- MapErr::listen from `src/transport/map_err.rs`. -/
def MapErr.listen {O E E2 DFut : Type}
    (t : TransportM O E DFut (MFut (Except E O))) (f : E → E2)
    (addr : SocketAddr) :
    Except E2 (List (ListenerEvent (MFut (Except E2 O)) E2)) :=
  match t.listen addr with
  | Except.error e => Except.error (f e)
  | Except.ok evs => Except.ok (evs.map (MapErr.onEvent f))

/-- Model of `AndThenFuture<TFut, TMap, TMapFut>` from
`src/transport/and_then.rs`: the inner future or the constructed map
future (as a tagged sum), plus the `Option`-held map function and
connected point. -/
structure AndThenFuture (TF MF A : Type) where
  inner : Either TF MF
  args : Option ((A → ConnectedPoint → MF) × ConnectedPoint)

/-- The `Either::Right` arm of the `loop` in `AndThenFuture::poll`
(`src/transport/and_then.rs`): poll the map future; Ok passes through,
Err is tagged `Either::Right`. -/
def AndThenFuture.pollMapFut {TF MF A ET EM B : Type}
    (pollM : MF → Poll (Except EM B) × MF) (fut : MF)
    (args : Option ((A → ConnectedPoint → MF) × ConnectedPoint)) :
    Poll (Except (Either ET EM) B) × AndThenFuture TF MF A :=
  match pollM fut with
  | (Poll.pending, f2) => (Poll.pending, ⟨Either.right f2, args⟩)
  | (Poll.ready (Except.ok v), f2) =>
    (Poll.ready (Except.ok v), ⟨Either.right f2, args⟩)
  | (Poll.ready (Except.error e), f2) =>
    (Poll.ready (Except.error (Either.right e)), ⟨Either.right f2, args⟩)

/-- AndThenFuture::poll from `src/transport/and_then.rs`.  The Rust body
is a `loop`; the `Left` arm polls the inner future, tags its error
`Either::Left`, and on Ok takes the args (the `.expect` panics with
"args should be set" when they are gone), constructs the map future
with `(output, connected_point)`, installs `Either::Right` and re-runs
the loop, whose `Right` arm always returns, so the loop is realised by
falling through to `pollMapFut`. -/
def AndThenFuture.poll {TF MF A ET EM B : Type}
    (pollT : TF → Poll (Except ET A) × TF)
    (pollM : MF → Poll (Except EM B) × MF)
    (self : AndThenFuture TF MF A) :
    Except String (Poll (Except (Either ET EM) B) × AndThenFuture TF MF A) :=
  match self.inner with
  | Either.left fut =>
    match pollT fut with
    | (Poll.pending, f2) => Except.ok (Poll.pending, ⟨Either.left f2, self.args⟩)
    | (Poll.ready (Except.error e), f2) =>
      Except.ok (Poll.ready (Except.error (Either.left e)),
        ⟨Either.left f2, self.args⟩)
    | (Poll.ready (Except.ok v), _) =>
      match self.args with
      | none => Except.error "args should be set"
      | some (map, point) =>
        Except.ok (AndThenFuture.pollMapFut pollM (map v point) none)
  | Either.right fut => Except.ok (AndThenFuture.pollMapFut pollM fut self.args)

/-- AndThen::connect from `src/transport/and_then.rs`: a synchronous
inner failure is tagged `Either::Left`; a dialer is wrapped into an
`AndThenFuture` holding the map function and the
`ConnectedPoint::Dialer` fixed at connect time.  `EM` is the map
future's error type, fixed explicitly for elaboration. -/
def AndThen.connect (EM : Type) {O E DFut UFut MF : Type}
    (t : TransportM O E DFut UFut) (map : O → ConnectedPoint → MF)
    (addr : SocketAddr) :
    Except (Either E EM) (AndThenFuture DFut MF O) :=
  match t.connect addr with
  | Except.error e => Except.error (Either.left e)
  | Except.ok d =>
    Except.ok ⟨Either.left d, some (map, ConnectedPoint.dialer addr)⟩

/-- The per-event transform of `AndThenListener::poll_next` from
`src/transport/and_then.rs`: `Incoming` upgrades are wrapped with the
map function and the `ConnectedPoint::Listener` of the event's
addresses; `Closed(Err)` and `Error` payloads are tagged `Either::Left`. -/
def AndThen.onEvent (EM : Type) {O E UFut MF : Type}
    (map : O → ConnectedPoint → MF) :
    ListenerEvent UFut E →
      ListenerEvent (AndThenFuture UFut MF O) (Either E EM)
  | .listened addr => .listened addr
  | .incoming local_addr remote_addr upgrade =>
      .incoming local_addr remote_addr
        ⟨Either.left upgrade,
          some (map, ConnectedPoint.listener local_addr remote_addr)⟩
  | .closed result => .closed (result.mapError Either.left)
  | .error e => .error (Either.left e)

/-- AndThen::listen from `src/transport/and_then.rs`. -/
def AndThen.listen (EM : Type) {O E DFut UFut MF : Type}
    (t : TransportM O E DFut UFut) (map : O → ConnectedPoint → MF)
    (addr : SocketAddr) :
    Except (Either E EM)
      (List (ListenerEvent (AndThenFuture UFut MF O) (Either E EM))) :=
  match t.listen addr with
  | Except.error e => Except.error (Either.left e)
  | Except.ok evs => Except.ok (evs.map (AndThen.onEvent EM map))

/-- The `Transport` impl of `AndThen<T, TMap>` from
`src/transport/and_then.rs`, as a whole transport value. -/
def AndThen.transport (EM B : Type) {O E DFut UFut MF : Type}
    (t : TransportM O E DFut UFut) (map : O → ConnectedPoint → MF) :
    TransportM B (Either E EM) (AndThenFuture DFut MF O)
      (AndThenFuture UFut MF O) :=
  { connect := fun addr => AndThen.connect EM t map addr
    listen := fun addr => AndThen.listen EM t map addr }

/-- Model of `TransportUpgradeError<TE, UE>` from
`src/transport/upgrade.rs`. -/
inductive TransportUpgradeError (TE UE : Type) where
  | transport (e : TE) : TransportUpgradeError TE UE
  | upgrade (e : UpgradeError UE) : TransportUpgradeError TE UE

/-- Model of `Authenticate<C, U>` from `src/transport/upgrade.rs`: a
newtype over `UpgradeApply` whose `Future` impl delegates `poll` to the
inner state machine. -/
structure Authenticate (Info Conn Output Error Fut : Type) where
  inner : UpgradeApplyState Info Conn Output Error Fut

/-- The `Future` impl of `Authenticate` (`src/transport/upgrade.rs`):
delegate to `UpgradeApply::poll`. -/
def Authenticate.poll {Info Conn Output Error Fut : Type}
    (toStr : Info → String)
    (pollF : Fut → Poll (Except Error Output) × Fut)
    (self : Authenticate Info Conn Output Error Fut) :
    Except String (Poll (Except (UpgradeError Error) Output) ×
      Authenticate Info Conn Output Error Fut) :=
  match UpgradeApply.poll toStr pollF self.inner with
  | Except.error msg => Except.error msg
  | Except.ok (p, st) => Except.ok (p, ⟨st⟩)

/-- The closure wired by `Builder::authenticate` into `and_then`
(`src/transport/upgrade.rs`): given the inner output `io` and the
connected point, enter `UpgradeApply` outbound when
`endpoint.is_dialer()` holds and inbound otherwise, wrapped in
`Authenticate`.  `mkD`, `mkL` are the negotiator constructors. -/
def Builder.authenticateMap {Info Conn D Error Fut : Type}
    (mkD mkL : Conn → List Info → MFut (Except NegotiationError (Info × Conn)))
    (u : UpgradeM Info Conn (PeerId × D) Error Fut) :
    Conn → ConnectedPoint → Authenticate Info Conn (PeerId × D) Error Fut :=
  fun conn endpoint =>
    if endpoint.is_dialer then ⟨UpgradeApply.new_outbound mkD conn u⟩
    else ⟨UpgradeApply.new_inbound mkL conn u⟩

/-- Builder::authenticate from `src/transport/upgrade.rs`: wires the
`and_then` combinator with `authenticateMap`, yielding a transport with
Output `(PeerId, D)` and error `Either<T::Error, UpgradeError<E>>`. -/
def Builder.authenticate {Info O D Error E DFut UFut Fut : Type}
    (mkD mkL : O → List Info → MFut (Except NegotiationError (Info × O)))
    (t : TransportM O E DFut UFut)
    (u : UpgradeM Info O (PeerId × D) Error Fut) :
    TransportM (PeerId × D) (Either E (UpgradeError Error))
      (AndThenFuture DFut (Authenticate Info O (PeerId × D) Error Fut) O)
      (AndThenFuture UFut (Authenticate Info O (PeerId × D) Error Fut) O) :=
  AndThen.transport (UpgradeError Error) (PeerId × D) t
    (Builder.authenticateMap mkD mkL u)

/-- Model of `Multiplex<C, U>` from `src/transport/upgrade.rs`: the
`Option`-held peer id and the `UpgradeApply` state machine. -/
structure Multiplex (Info Conn M Error Fut : Type) where
  peer_id : Option PeerId
  upgrade : UpgradeApplyState Info Conn M Error Fut

/-- The closure wired by `AuthenticatedBuilder::multiplex` into
`and_then` (`src/transport/upgrade.rs`): destructure `(id, io)`, enter
`UpgradeApply` outbound when `endpoint.is_dialer()` holds and inbound
otherwise, and carry the peer id alongside. -/
def AuthenticatedBuilder.multiplexMap {Info Conn M Error Fut : Type}
    (mkD mkL : Conn → List Info → MFut (Except NegotiationError (Info × Conn)))
    (u : UpgradeM Info Conn M Error Fut) :
    (PeerId × Conn) → ConnectedPoint → Multiplex Info Conn M Error Fut :=
  fun io endpoint =>
    match io with
    | (id, conn) =>
      { peer_id := some id
        upgrade :=
          if endpoint.is_dialer then UpgradeApply.new_outbound mkD conn u
          else UpgradeApply.new_inbound mkL conn u }

/-- The `Future` impl of `Multiplex` (`src/transport/upgrade.rs`): poll
the `UpgradeApply`; on Ok take the peer id (the `.expect` panics with
"Multiplex future polled after completion." when it is gone) and return
`(id, muxer)`. -/
def Multiplex.poll {Info Conn M Error Fut : Type}
    (toStr : Info → String)
    (pollF : Fut → Poll (Except Error M) × Fut)
    (self : Multiplex Info Conn M Error Fut) :
    Except String (Poll (Except (UpgradeError Error) (PeerId × M)) ×
      Multiplex Info Conn M Error Fut) :=
  match UpgradeApply.poll toStr pollF self.upgrade with
  | Except.error msg => Except.error msg
  | Except.ok (Poll.pending, st) =>
    Except.ok (Poll.pending, { self with upgrade := st })
  | Except.ok (Poll.ready (Except.error e), st) =>
    Except.ok (Poll.ready (Except.error e), { self with upgrade := st })
  | Except.ok (Poll.ready (Except.ok m), st) =>
    match self.peer_id with
    | none => Except.error "Multiplex future polled after completion."
    | some i =>
      Except.ok (Poll.ready (Except.ok (i, m)), { peer_id := none, upgrade := st })

/-- AuthenticatedBuilder::multiplex from `src/transport/upgrade.rs`:
wires the `and_then` combinator with `multiplexMap` over a transport of
Output `(PeerId, C)`.  The `Multiplexed` wrapper's `Transport` impl
delegates `connect` and `listen` unchanged and is therefore elided. -/
def AuthenticatedBuilder.multiplex {Info Conn M Error E DFut UFut Fut : Type}
    (mkD mkL : Conn → List Info → MFut (Except NegotiationError (Info × Conn)))
    (t : TransportM (PeerId × Conn) E DFut UFut)
    (u : UpgradeM Info Conn M Error Fut) :
    TransportM (PeerId × M) (Either E (UpgradeError Error))
      (AndThenFuture DFut (Multiplex Info Conn M Error Fut) (PeerId × Conn))
      (AndThenFuture UFut (Multiplex Info Conn M Error Fut) (PeerId × Conn)) :=
  AndThen.transport (UpgradeError Error) (PeerId × M) t
    (AuthenticatedBuilder.multiplexMap mkD mkL u)

/-- Model of `UpgradeFuture<Fut, U, C>` from `src/transport/upgrade.rs`
(the dialer and listener-upgrade future of `WithUpgrade`, the transport
built by `AuthenticatedBuilder::apply`).  The inner transport's future
is modelled as an `MFut` resolving with `Result<(PeerId, C), TE>`. -/
structure UpgradeFuture (TE Info Conn Output Error Fut : Type) where
  inner_fut : MFut (Except TE (PeerId × Conn))
  role : Endpoint
  upgrade : Either (Option (UpgradeM Info Conn Output Error Fut))
    (PeerId × UpgradeApplyState Info Conn Output Error Fut)

/-- The `Either::Right` arm of the `loop` in `UpgradeFuture::poll`
(`src/transport/upgrade.rs`): poll the `UpgradeApply`; Pending passes
through, an upgrade error is converted (the `?` operator and the
`#[from]` impl) into `TransportUpgradeError::Upgrade`, and Ok returns
`(peer_id, output)` with the peer id taken unchanged from the state. -/
def UpgradeFuture.pollUpgrading {TE Info Conn Output Error Fut : Type}
    (toStr : Info → String)
    (pollF : Fut → Poll (Except Error Output) × Fut)
    (inner_fut : MFut (Except TE (PeerId × Conn))) (role : Endpoint)
    (i : PeerId) (up : UpgradeApplyState Info Conn Output Error Fut) :
    Except String (Poll (Except (TransportUpgradeError TE Error)
      (PeerId × Output)) × UpgradeFuture TE Info Conn Output Error Fut) :=
  match UpgradeApply.poll toStr pollF up with
  | Except.error msg => Except.error msg
  | Except.ok (Poll.pending, st) =>
    Except.ok (Poll.pending, ⟨inner_fut, role, Either.right (i, st)⟩)
  | Except.ok (Poll.ready (Except.error e), st) =>
    Except.ok (Poll.ready (Except.error (TransportUpgradeError.upgrade e)),
      ⟨inner_fut, role, Either.right (i, st)⟩)
  | Except.ok (Poll.ready (Except.ok out), st) =>
    Except.ok (Poll.ready (Except.ok (i, out)),
      ⟨inner_fut, role, Either.right (i, st)⟩)

/-- UpgradeFuture::poll from `src/transport/upgrade.rs`.  The Rust body
is a `loop`; the `Left` arm polls the inner transport future, maps its
error with `TransportUpgradeError::Transport`, and on Ok takes the
upgrade (the `.expect` panics with "upgrade should be set" when it is
gone), enters `UpgradeApply` by role, installs `Either::Right` and
re-runs the loop, whose `Right` arm always returns, so the loop is
realised by falling through to `pollUpgrading`. -/
def UpgradeFuture.poll {TE Info Conn Output Error Fut : Type}
    (toStr : Info → String)
    (pollF : Fut → Poll (Except Error Output) × Fut)
    (mkD mkL : Conn → List Info → MFut (Except NegotiationError (Info × Conn)))
    (self : UpgradeFuture TE Info Conn Output Error Fut) :
    Except String (Poll (Except (TransportUpgradeError TE Error)
      (PeerId × Output)) × UpgradeFuture TE Info Conn Output Error Fut) :=
  match self.upgrade with
  | Either.left up =>
    match MFut.poll self.inner_fut with
    | (Poll.pending, f2) =>
      Except.ok (Poll.pending, ⟨f2, self.role, Either.left up⟩)
    | (Poll.ready (Except.error e), f2) =>
      Except.ok (Poll.ready (Except.error (TransportUpgradeError.transport e)),
        ⟨f2, self.role, Either.left up⟩)
    | (Poll.ready (Except.ok (peer_id, conn)), f2) =>
      match up with
      | none => Except.error "upgrade should be set"
      | some u =>
        UpgradeFuture.pollUpgrading toStr pollF f2 self.role peer_id
          (match self.role with
            | Endpoint.dialer => UpgradeApply.new_outbound mkD conn u
            | Endpoint.listener => UpgradeApply.new_inbound mkL conn u)
  | Either.right pu =>
    match pu with
    | (i, up) => UpgradeFuture.pollUpgrading toStr pollF self.inner_fut self.role i up

/-- Discriminator for the `Undefined` state of `UpgradeApply`. -/
def UpgradeApplyState.isUndefined {Info Conn Output Error Fut : Type} :
    UpgradeApplyState Info Conn Output Error Fut → Bool
  | .undefined => true
  | _ => false

/-- C10: EitherFuture is a tag-preserving homomorphism of its
constructed variant: polling the Left-constructed future is pending
exactly when the inner future is, ready with a Left-tagged value or
error exactly when the inner future is ready with that value or error,
and its poll outcome is always pending or Left-tagged, never
Right-tagged; symmetrically for Right. -/
theorem eitherFuture_tag_homomorphism {FA FB EA EB OA OB : Type}
    (pa : FA → Poll (Except EA OA) × FA) (pb : FB → Poll (Except EB OB) × FB)
    (a : FA) (b : FB) :
    ((EitherFuture.poll pa pb (.left a)).1 = Poll.pending ↔
        (pa a).1 = Poll.pending)
    ∧ (∀ v, (EitherFuture.poll pa pb (.left a)).1
          = Poll.ready (Except.ok (Either.left v)) ↔
        (pa a).1 = Poll.ready (Except.ok v))
    ∧ (∀ e, (EitherFuture.poll pa pb (.left a)).1
          = Poll.ready (Except.error (Either.left e)) ↔
        (pa a).1 = Poll.ready (Except.error e))
    ∧ ((EitherFuture.poll pa pb (.left a)).1 = Poll.pending
        ∨ (∃ v, (EitherFuture.poll pa pb (.left a)).1
            = Poll.ready (Except.ok (Either.left v)))
        ∨ (∃ e, (EitherFuture.poll pa pb (.left a)).1
            = Poll.ready (Except.error (Either.left e))))
    ∧ ((EitherFuture.poll pa pb (.right b)).1 = Poll.pending ↔
        (pb b).1 = Poll.pending)
    ∧ (∀ v, (EitherFuture.poll pa pb (.right b)).1
          = Poll.ready (Except.ok (Either.right v)) ↔
        (pb b).1 = Poll.ready (Except.ok v))
    ∧ (∀ e, (EitherFuture.poll pa pb (.right b)).1
          = Poll.ready (Except.error (Either.right e)) ↔
        (pb b).1 = Poll.ready (Except.error e))
    ∧ ((EitherFuture.poll pa pb (.right b)).1 = Poll.pending
        ∨ (∃ v, (EitherFuture.poll pa pb (.right b)).1
            = Poll.ready (Except.ok (Either.right v)))
        ∨ (∃ e, (EitherFuture.poll pa pb (.right b)).1
            = Poll.ready (Except.error (Either.right e)))) := by
  rcases ha : pa a with ⟨pra, a2⟩
  rcases hb : pb b with ⟨prb, b2⟩
  refine ⟨?_, ?_, ?_, ?_, ?_, ?_, ?_, ?_⟩
  all_goals
    first
    | (cases pra with
        | pending => simp [EitherFuture.poll, ha]
        | ready v =>
          cases v with
          | ok w => simp [EitherFuture.poll, ha]
          | error w => simp [EitherFuture.poll, ha])
    | (cases prb with
        | pending => simp [EitherFuture.poll, hb]
        | ready v =>
          cases v with
          | ok w => simp [EitherFuture.poll, hb]
          | error w => simp [EitherFuture.poll, hb])

/-- C8: the three ListenerEvent maps preserve the variant and are pure:
map_upgrade applies its function only to the Incoming upgrade, map_err
only inside Error and Closed(Err), and map_upgrade_err only to the
Incoming upgrade's error channel; no other field is altered and no
variant changes. -/
theorem listenerEvent_maps_pure {T T2 E E2 α : Type}
    (f : T → T2) (g : E → E2)
    (addr la ra : SocketAddr) (u : T) (e : E)
    (res : Except E Unit) (m : MFut (Except E α)) :
    (ListenerEvent.map_upgrade f (.listened addr : ListenerEvent T E)
      = .listened addr)
    ∧ (ListenerEvent.map_upgrade f (.incoming la ra u : ListenerEvent T E)
      = .incoming la ra (f u))
    ∧ (ListenerEvent.map_upgrade f (.closed res : ListenerEvent T E)
      = .closed res)
    ∧ (ListenerEvent.map_upgrade f (.error e : ListenerEvent T E) = .error e)
    ∧ (ListenerEvent.map_err g (.listened addr : ListenerEvent T E)
      = .listened addr)
    ∧ (ListenerEvent.map_err g (.incoming la ra u : ListenerEvent T E)
      = .incoming la ra u)
    ∧ (ListenerEvent.map_err g (.closed (Except.ok ()) : ListenerEvent T E)
      = .closed (Except.ok ()))
    ∧ (ListenerEvent.map_err g (.closed (Except.error e) : ListenerEvent T E)
      = .closed (Except.error (g e)))
    ∧ (ListenerEvent.map_err g (.error e : ListenerEvent T E) = .error (g e))
    ∧ (ListenerEvent.map_upgrade_err g
        (.listened addr : ListenerEvent (MFut (Except E α)) E)
      = .listened addr)
    ∧ (ListenerEvent.map_upgrade_err g
        (.incoming la ra m : ListenerEvent (MFut (Except E α)) E)
      = .incoming la ra (m.map_err g))
    ∧ (ListenerEvent.map_upgrade_err g
        (.closed res : ListenerEvent (MFut (Except E α)) E)
      = .closed res)
    ∧ (ListenerEvent.map_upgrade_err g
        (.error e : ListenerEvent (MFut (Except E α)) E)
      = .error e) :=
  ⟨rfl, rfl, rfl, rfl, rfl, rfl, rfl, rfl, rfl, rfl, rfl, rfl, rfl⟩

/-- C6: a SelectUpgrade's info list is A's tokens tagged Left, in A's
order, followed by B's tokens tagged Right, in B's order; its inbound
and outbound entrypoints dispatch on the tag, running A on Left and B
on Right with the untagged info, and the returned future carries the
same tag, so its output and error (by the EitherFuture poll) are the
correspondingly tagged sums. -/
theorem selectUpgrade_info_and_dispatch {IA IB Conn OA OB EA EB FA FB : Type}
    (a : UpgradeM IA Conn OA EA FA) (b : UpgradeM IB Conn OB EB FB)
    (stream : Conn) (ia : IA) (ib : IB)
    (pa : FA → Poll (Except EA OA) × FA) (pb : FB → Poll (Except EB OB) × FB)
    (va : OA) (vb : OB) (ea : EA) (eb : EB) :
    ((selectUpgrade a b).protocol_info
      = a.protocol_info.map Either.left ++ b.protocol_info.map Either.right)
    ∧ ((selectUpgrade a b).upgrade_inbound stream (Either.left ia)
      = EitherFuture.left (a.upgrade_inbound stream ia))
    ∧ ((selectUpgrade a b).upgrade_inbound stream (Either.right ib)
      = EitherFuture.right (b.upgrade_inbound stream ib))
    ∧ ((selectUpgrade a b).upgrade_outbound stream (Either.left ia)
      = EitherFuture.left (a.upgrade_outbound stream ia))
    ∧ ((selectUpgrade a b).upgrade_outbound stream (Either.right ib)
      = EitherFuture.right (b.upgrade_outbound stream ib))
    ∧ (EitherFuture.poll MFut.poll pb
        (EitherFuture.left (⟨0, Except.ok va⟩ : MFut (Except EA OA)))
      = (Poll.ready (Except.ok (Either.left va)),
          EitherFuture.left ⟨0, Except.ok va⟩))
    ∧ (EitherFuture.poll MFut.poll pb
        (EitherFuture.left (⟨0, Except.error ea⟩ : MFut (Except EA OA)))
      = (Poll.ready (Except.error (Either.left ea)),
          EitherFuture.left ⟨0, Except.error ea⟩))
    ∧ (EitherFuture.poll pa MFut.poll
        (EitherFuture.right (⟨0, Except.ok vb⟩ : MFut (Except EB OB)))
      = (Poll.ready (Except.ok (Either.right vb)),
          EitherFuture.right ⟨0, Except.ok vb⟩))
    ∧ (EitherFuture.poll pa MFut.poll
        (EitherFuture.right (⟨0, Except.error eb⟩ : MFut (Except EB OB)))
      = (Poll.ready (Except.error (Either.right eb)),
          EitherFuture.right ⟨0, Except.error eb⟩)) :=
  ⟨rfl, rfl, rfl, rfl, rfl, rfl, rfl, rfl, rfl⟩

/-- C1: the UpgradeApply state machine.  new_outbound enters DialerInit
with the dialer negotiator.  A poll in DialerInit polls the negotiator:
pending stays in DialerInit; Ok((info, conn)) constructs
upgrade_outbound(conn, info), records the string form of info as the
name and moves to the Upgrade state (whose arm runs in the same poll,
as the Rust loop does); Err(e) returns Ready(Err(Select(e))).  In the
Upgrade state, pending stays, Ok(x) returns Ready(Ok(x)) and Err(e)
returns Ready(Err(Apply(e))).  The ListenerInit path entered by
new_inbound is symmetric with upgrade_inbound. -/
theorem upgradeApply_poll_state_machine {Info Conn Output Error : Type}
    (toStr : Info → String)
    (mk : Conn → List Info →
      MFut (Except NegotiationError (Info × Conn)))
    (u : UpgradeM Info Conn Output Error (MFut (Except Error Output)))
    (conn0 : Conn) (n : Nat) (r : Except NegotiationError (Info × Conn))
    (info : Info) (conn : Conn) (e : NegotiationError)
    (m : Nat) (ur : Except Error Output) (name : String)
    (x : Output) (err : Error) :
    (UpgradeApply.new_outbound mk conn0 u
      = .dialerInit (mk conn0 u.protocol_info) u)
    ∧ (UpgradeApply.new_inbound mk conn0 u
      = .listenerInit (mk conn0 u.protocol_info) u)
    ∧ (UpgradeApply.poll toStr MFut.poll (.dialerInit ⟨n + 1, r⟩ u)
      = Except.ok (Poll.pending, .dialerInit ⟨n, r⟩ u))
    ∧ (UpgradeApply.poll toStr MFut.poll
        (.dialerInit ⟨0, Except.ok (info, conn)⟩ u)
      = UpgradeApply.poll toStr MFut.poll
          (.upgrade (u.upgrade_outbound conn info) (toStr info)))
    ∧ (UpgradeApply.poll toStr MFut.poll (.dialerInit ⟨0, Except.error e⟩ u)
      = Except.ok (Poll.ready (Except.error (UpgradeError.select e)),
          .undefined))
    ∧ (UpgradeApply.poll toStr MFut.poll (.listenerInit ⟨n + 1, r⟩ u)
      = Except.ok (Poll.pending, .listenerInit ⟨n, r⟩ u))
    ∧ (UpgradeApply.poll toStr MFut.poll
        (.listenerInit ⟨0, Except.ok (info, conn)⟩ u)
      = UpgradeApply.poll toStr MFut.poll
          (.upgrade (u.upgrade_inbound conn info) (toStr info)))
    ∧ (UpgradeApply.poll toStr MFut.poll (.listenerInit ⟨0, Except.error e⟩ u)
      = Except.ok (Poll.ready (Except.error (UpgradeError.select e)),
          .undefined))
    ∧ (UpgradeApply.poll toStr MFut.poll
        (.upgrade ⟨m + 1, ur⟩ name :
          UpgradeApplyState Info Conn Output Error (MFut (Except Error Output)))
      = Except.ok (Poll.pending, .upgrade ⟨m, ur⟩ name))
    ∧ (UpgradeApply.poll toStr MFut.poll
        (.upgrade ⟨0, Except.ok x⟩ name :
          UpgradeApplyState Info Conn Output Error (MFut (Except Error Output)))
      = Except.ok (Poll.ready (Except.ok x), .undefined))
    ∧ (UpgradeApply.poll toStr MFut.poll
        (.upgrade ⟨0, Except.error err⟩ name :
          UpgradeApplyState Info Conn Output Error (MFut (Except Error Output)))
      = Except.ok (Poll.ready (Except.error (UpgradeError.apply err)),
          .undefined)) :=
  ⟨rfl, rfl, rfl, rfl, rfl, rfl, rfl, rfl, rfl, rfl, rfl⟩

/-- C9: entering UpgradeApply::poll in the Undefined state is fatal (the
panic, modelled as the error alternative).  Every poll outcome is
either a panic, or Pending with a restored non-Undefined state, or a
terminal Ready that leaves the state Undefined — so a poller that stops
at the first Ready never observes Undefined, and polling again after a
terminal Ready hits the fatal Undefined arm. -/
theorem upgradeApply_undefined_fatal {Info Conn Output Error Fut : Type}
    (toStr : Info → String)
    (pollF : Fut → Poll (Except Error Output) × Fut) :
    (UpgradeApply.poll toStr pollF
        (.undefined : UpgradeApplyState Info Conn Output Error Fut)
      = Except.error "Invalid state in UpgradeApply")
    ∧ ∀ st : UpgradeApplyState Info Conn Output Error Fut,
        (∃ msg, UpgradeApply.poll toStr pollF st = Except.error msg)
        ∨ (∃ st2, UpgradeApply.poll toStr pollF st
              = Except.ok (Poll.pending, st2)
            ∧ st2.isUndefined = false)
        ∨ (∃ res, UpgradeApply.poll toStr pollF st
            = Except.ok (Poll.ready res, UpgradeApplyState.undefined)) := by
  constructor
  · rfl
  · intro st
    cases st with
    | dialerInit fut u =>
      obtain ⟨np, nr⟩ := fut
      cases np with
      | succ np =>
        exact Or.inr (Or.inl ⟨.dialerInit ⟨np, nr⟩ u, rfl, rfl⟩)
      | zero =>
        cases nr with
        | error e =>
          exact Or.inr (Or.inr ⟨Except.error (UpgradeError.select e), rfl⟩)
        | ok p =>
          obtain ⟨info, conn⟩ := p
          rcases h : pollF (u.upgrade_outbound conn info) with ⟨pu, f2⟩
          cases pu with
          | pending =>
            refine Or.inr (Or.inl ⟨.upgrade f2 (toStr info), ?_, rfl⟩)
            simp [UpgradeApply.poll, UpgradeApply.pollUpgrade, MFut.poll, h]
          | ready v =>
            cases v with
            | ok x =>
              refine Or.inr (Or.inr ⟨Except.ok x, ?_⟩)
              simp [UpgradeApply.poll, UpgradeApply.pollUpgrade, MFut.poll, h]
            | error e =>
              refine Or.inr (Or.inr ⟨Except.error (UpgradeError.apply e), ?_⟩)
              simp [UpgradeApply.poll, UpgradeApply.pollUpgrade, MFut.poll, h]
    | listenerInit fut u =>
      obtain ⟨np, nr⟩ := fut
      cases np with
      | succ np =>
        exact Or.inr (Or.inl ⟨.listenerInit ⟨np, nr⟩ u, rfl, rfl⟩)
      | zero =>
        cases nr with
        | error e =>
          exact Or.inr (Or.inr ⟨Except.error (UpgradeError.select e), rfl⟩)
        | ok p =>
          obtain ⟨info, conn⟩ := p
          rcases h : pollF (u.upgrade_inbound conn info) with ⟨pu, f2⟩
          cases pu with
          | pending =>
            refine Or.inr (Or.inl ⟨.upgrade f2 (toStr info), ?_, rfl⟩)
            simp [UpgradeApply.poll, UpgradeApply.pollUpgrade, MFut.poll, h]
          | ready v =>
            cases v with
            | ok x =>
              refine Or.inr (Or.inr ⟨Except.ok x, ?_⟩)
              simp [UpgradeApply.poll, UpgradeApply.pollUpgrade, MFut.poll, h]
            | error e =>
              refine Or.inr (Or.inr ⟨Except.error (UpgradeError.apply e), ?_⟩)
              simp [UpgradeApply.poll, UpgradeApply.pollUpgrade, MFut.poll, h]
    | upgrade fut name =>
      rcases h : pollF fut with ⟨pu, f2⟩
      cases pu with
      | pending =>
        refine Or.inr (Or.inl ⟨.upgrade f2 name, ?_, rfl⟩)
        simp [UpgradeApply.poll, UpgradeApply.pollUpgrade, h]
      | ready v =>
        cases v with
        | ok x =>
          refine Or.inr (Or.inr ⟨Except.ok x, ?_⟩)
          simp [UpgradeApply.poll, UpgradeApply.pollUpgrade, h]
        | error e =>
          refine Or.inr (Or.inr ⟨Except.error (UpgradeError.apply e), ?_⟩)
          simp [UpgradeApply.poll, UpgradeApply.pollUpgrade, h]
    | undefined =>
      exact Or.inl ⟨"Invalid state in UpgradeApply", rfl⟩

/-- C3: ordering and error tagging of and_then.  While the inner future
is pending the composite is pending and the args are held untouched; if
the inner future fails with e the composite resolves with
Either::Left(e) for every map function and args, so the map function is
never invoked; if the inner future succeeds with output o the map
future is constructed with (o, p) — the composite continues exactly as
the poll of the Right-installed map future — and a failure e2 of the
map future resolves the composite with Either::Right(e2).  On the
listener side, Error(e) and Closed(Err(e)) of the inner stream are
tagged Either::Left. -/
theorem andThen_ordering_and_error_tagging {A B ET EM MF UFut : Type}
    (pollM : MF → Poll (Except EM B) × MF)
    (map : A → ConnectedPoint → MF) (p : ConnectedPoint)
    (n : Nat) (tr : Except ET A) (e : ET) (o : A)
    (args : Option ((A → ConnectedPoint → MF) × ConnectedPoint))
    (em : EM)
    (args2 : Option ((A → ConnectedPoint →
      MFut (Except EM B)) × ConnectedPoint)) :
    (AndThenFuture.poll MFut.poll pollM
        (⟨Either.left ⟨n + 1, tr⟩, args⟩ :
          AndThenFuture (MFut (Except ET A)) MF A)
      = Except.ok (Poll.pending, ⟨Either.left ⟨n, tr⟩, args⟩))
    ∧ (AndThenFuture.poll MFut.poll pollM
        (⟨Either.left ⟨0, Except.error e⟩, args⟩ :
          AndThenFuture (MFut (Except ET A)) MF A)
      = Except.ok (Poll.ready (Except.error (Either.left e)),
          ⟨Either.left ⟨0, Except.error e⟩, args⟩))
    ∧ (AndThenFuture.poll MFut.poll pollM
        (⟨Either.left ⟨0, Except.ok o⟩, some (map, p)⟩ :
          AndThenFuture (MFut (Except ET A)) MF A)
      = AndThenFuture.poll MFut.poll pollM ⟨Either.right (map o p), none⟩)
    ∧ (AndThenFuture.poll MFut.poll MFut.poll
        (⟨Either.right ⟨0, Except.error em⟩, args2⟩ :
          AndThenFuture (MFut (Except ET A)) (MFut (Except EM B)) A)
      = Except.ok (Poll.ready (Except.error (Either.right em)),
          ⟨Either.right ⟨0, Except.error em⟩, args2⟩))
    ∧ (AndThen.onEvent EM map (.error e : ListenerEvent UFut ET)
      = .error (Either.left e))
    ∧ (AndThen.onEvent EM map
        (.closed (Except.error e) : ListenerEvent UFut ET)
      = .closed (Except.error (Either.left e)))
    ∧ (AndThen.onEvent EM map (.closed (Except.ok ()) : ListenerEvent UFut ET)
      = .closed (Except.ok ())) :=
  ⟨rfl, rfl, rfl, rfl, rfl, rfl, rfl⟩

/-- C4: map(f) is output-pure.  connect fixes ConnectedPoint::Dialer
with the dialed address at connect time, before the inner dialer is
polled; an Incoming event fixes ConnectedPoint::Listener with the
event's addresses; polling the composed future is pending while the
inner is, yields exactly f(o, p) once when the inner succeeds (the args
are consumed, and a second successful yield is the fatal
"MapFuture has already finished." panic), and passes errors, Closed,
Listened and Error events through unchanged. -/
theorem map_output_pure {O O2 E DFut UFut : Type}
    (d : DFut) (c : SocketAddr → Except E DFut)
    (l : SocketAddr → Except E (List (ListenerEvent UFut E)))
    (evs : List (ListenerEvent UFut E))
    (f : O → ConnectedPoint → O2) (addr la ra : SocketAddr) (u : UFut)
    (e : E) (res : Except E Unit) (n : Nat) (r : Except E O) (o : O)
    (p : ConnectedPoint)
    (args : Option ((O → ConnectedPoint → O2) × ConnectedPoint)) :
    (Map.connect ⟨fun _ => Except.ok d, l⟩ f addr
      = Except.ok ⟨d, some (f, ConnectedPoint.dialer addr)⟩)
    ∧ (Map.connect (⟨fun _ => Except.error e, l⟩ : TransportM O E DFut UFut)
        f addr
      = Except.error e)
    ∧ (Map.listen ⟨c, fun _ => Except.ok evs⟩ f addr
      = Except.ok (evs.map (Map.onEvent f)))
    ∧ (Map.listen (⟨c, fun _ => Except.error e⟩ : TransportM O E DFut UFut)
        f addr
      = Except.error e)
    ∧ (Map.onEvent f (.incoming la ra u : ListenerEvent UFut E)
      = .incoming la ra ⟨u, some (f, ConnectedPoint.listener la ra)⟩)
    ∧ (Map.onEvent f (.listened addr : ListenerEvent UFut E) = .listened addr)
    ∧ (Map.onEvent f (.closed res : ListenerEvent UFut E) = .closed res)
    ∧ (Map.onEvent f (.error e : ListenerEvent UFut E) = .error e)
    ∧ (MapFuture.poll MFut.poll
        (⟨⟨n + 1, r⟩, args⟩ :
          MapFuture (MFut (Except E O)) (O → ConnectedPoint → O2))
      = Except.ok (Poll.pending, ⟨⟨n, r⟩, args⟩))
    ∧ (MapFuture.poll MFut.poll
        (⟨⟨0, Except.ok o⟩, some (f, p)⟩ :
          MapFuture (MFut (Except E O)) (O → ConnectedPoint → O2))
      = Except.ok (Poll.ready (Except.ok (f o p)), ⟨⟨0, Except.ok o⟩, none⟩))
    ∧ (MapFuture.poll MFut.poll
        (⟨⟨0, Except.ok o⟩, none⟩ :
          MapFuture (MFut (Except E O)) (O → ConnectedPoint → O2))
      = Except.error "MapFuture has already finished.")
    ∧ (MapFuture.poll MFut.poll
        (⟨⟨0, Except.error e⟩, args⟩ :
          MapFuture (MFut (Except E O)) (O → ConnectedPoint → O2))
      = Except.ok (Poll.ready (Except.error e), ⟨⟨0, Except.error e⟩, args⟩)) :=
  ⟨rfl, rfl, rfl, rfl, rfl, rfl, rfl, rfl, rfl, rfl, rfl, rfl⟩

/-- C5: map_err(f) applies f to every error source exactly once: the
synchronous connect and listen failures, the dialer future's error
channel (pendings and successful outputs untouched), the
listener-upgrade future's error channel inside Incoming, the Error
event payload and the Closed(Err) payload; successes and all other
event fields are identical to the inner transport's. -/
theorem mapErr_all_error_sources_once {O E E2 DFut UFut : Type}
    (f : E → E2) (addr la ra : SocketAddr)
    (d : MFut (Except E O))
    (c2 : SocketAddr → Except E DFut)
    (l : SocketAddr → Except E (List (ListenerEvent UFut E)))
    (evs : List (ListenerEvent (MFut (Except E O)) E))
    (e : E) (n : Nat) (o : O) (m : MFut (Except E O)) :
    (MapErr.connect
        (⟨fun _ => Except.error e, l⟩ :
          TransportM O E (MFut (Except E O)) UFut) f addr
      = Except.error (f e))
    ∧ (MapErr.connect
        (⟨fun _ => Except.ok d, l⟩ :
          TransportM O E (MFut (Except E O)) UFut) f addr
      = Except.ok (d.map_err f))
    ∧ ((⟨n, Except.ok o⟩ : MFut (Except E O)).map_err f = ⟨n, Except.ok o⟩)
    ∧ ((⟨n, Except.error e⟩ : MFut (Except E O)).map_err f
      = ⟨n, Except.error (f e)⟩)
    ∧ (MapErr.listen
        (⟨c2, fun _ => Except.error e⟩ :
          TransportM O E DFut (MFut (Except E O))) f addr
      = Except.error (f e))
    ∧ (MapErr.listen
        (⟨c2, fun _ => Except.ok evs⟩ :
          TransportM O E DFut (MFut (Except E O))) f addr
      = Except.ok (evs.map (MapErr.onEvent f)))
    ∧ (MapErr.onEvent (O := O) f (.listened addr) = .listened addr)
    ∧ (MapErr.onEvent f (.incoming la ra m) = .incoming la ra (m.map_err f))
    ∧ (MapErr.onEvent (O := O) f (.closed (Except.ok ()))
      = .closed (Except.ok ()))
    ∧ (MapErr.onEvent (O := O) f (.closed (Except.error e))
      = .closed (Except.error (f e)))
    ∧ (MapErr.onEvent (O := O) f (.error e) = .error (f e)) :=
  ⟨rfl, rfl, rfl, rfl, rfl, rfl, rfl, rfl, rfl, rfl, rfl⟩

/-- C2: a transport built by Builder::authenticate (and likewise by
AuthenticatedBuilder::multiplex) wires an and_then whose map inspects
endpoint.is_dialer(): a connection from connect carries
ConnectedPoint::Dialer — for which is_dialer holds — and enters the
upgrade through UpgradeApply::new_outbound, while a connection from a
listener Incoming event carries ConnectedPoint::Listener — is_dialer
false — and enters through UpgradeApply::new_inbound; a successful
authenticated connection resolves with the (PeerId, D) pair produced by
the upgrade. -/
theorem builder_authenticate_multiplex_dispatch
    {Info O D Error E DFut UFut Fut Info2 Conn2 M Error2 Fut2 : Type}
    (mkD mkL : O → List Info → MFut (Except NegotiationError (Info × O)))
    (mkD2 mkL2 : Conn2 → List Info2 →
      MFut (Except NegotiationError (Info2 × Conn2)))
    (toStr : Info → String)
    (d : DFut) (c : SocketAddr → Except E DFut)
    (l : SocketAddr → Except E (List (ListenerEvent UFut E)))
    (u : UpgradeM Info O (PeerId × D) Error Fut)
    (um : UpgradeM Info2 Conn2 M Error2 Fut2)
    (addr la ra : SocketAddr) (conn : O) (conn2 : Conn2) (upg : UFut)
    (peer : PeerId) (dd : D) (name : String)
    (d2 : DFut) (t2 : TransportM (PeerId × Conn2) E DFut UFut) :
    ((Builder.authenticate mkD mkL
        (⟨fun _ => Except.ok d, l⟩ : TransportM O E DFut UFut) u).connect addr
      = Except.ok ⟨Either.left d,
          some (Builder.authenticateMap mkD mkL u, ConnectedPoint.dialer addr)⟩)
    ∧ ((ConnectedPoint.dialer addr).is_dialer = true)
    ∧ (Builder.authenticateMap mkD mkL u conn (ConnectedPoint.dialer addr)
      = ⟨UpgradeApply.new_outbound mkD conn u⟩)
    ∧ ((Builder.authenticate mkD mkL
        (⟨c, fun _ => Except.ok [ListenerEvent.incoming la ra upg]⟩ :
          TransportM O E DFut UFut) u).listen addr
      = Except.ok [ListenerEvent.incoming la ra
          ⟨Either.left upg,
            some (Builder.authenticateMap mkD mkL u,
              ConnectedPoint.listener la ra)⟩])
    ∧ ((ConnectedPoint.listener la ra).is_dialer = false)
    ∧ (Builder.authenticateMap mkD mkL u conn (ConnectedPoint.listener la ra)
      = ⟨UpgradeApply.new_inbound mkL conn u⟩)
    ∧ ((AuthenticatedBuilder.multiplex mkD2 mkL2
        (⟨fun _ => Except.ok d2, t2.listen⟩ :
          TransportM (PeerId × Conn2) E DFut UFut) um).connect addr
      = Except.ok ⟨Either.left d2,
          some (AuthenticatedBuilder.multiplexMap mkD2 mkL2 um,
            ConnectedPoint.dialer addr)⟩)
    ∧ (AuthenticatedBuilder.multiplexMap mkD2 mkL2 um (peer, conn2)
        (ConnectedPoint.dialer addr)
      = ⟨some peer, UpgradeApply.new_outbound mkD2 conn2 um⟩)
    ∧ (AuthenticatedBuilder.multiplexMap mkD2 mkL2 um (peer, conn2)
        (ConnectedPoint.listener la ra)
      = ⟨some peer, UpgradeApply.new_inbound mkL2 conn2 um⟩)
    ∧ (Authenticate.poll toStr MFut.poll
        (⟨.upgrade ⟨0, Except.ok (peer, dd)⟩ name⟩ :
          Authenticate Info O (PeerId × D) Error
            (MFut (Except Error (PeerId × D))))
      = Except.ok (Poll.ready (Except.ok (peer, dd)), ⟨.undefined⟩)) :=
  ⟨rfl, rfl, rfl, rfl, rfl, rfl, rfl, rfl, rfl, rfl⟩

/-- C7: the dialer and listener-upgrade future of a transport built by
AuthenticatedBuilder::apply (UpgradeFuture).  While the inner
authenticated future is pending the composite is pending; an inner
failure is reported as TransportUpgradeError::Transport; when the inner
future yields (id, io) — and only then — the upgrade's negotiation is
constructed by role and polled from the Right-installed state; from
there, a negotiation or upgrade failure is reported as
TransportUpgradeError::Upgrade and a success resolves with (id, d)
where id is exactly the PeerId the inner transport produced, unchanged. -/
theorem withUpgrade_peerId_threading {TE Info Conn Output Error : Type}
    (toStr : Info → String)
    (mkD mkL : Conn → List Info →
      MFut (Except NegotiationError (Info × Conn)))
    (u : UpgradeM Info Conn Output Error (MFut (Except Error Output)))
    (n : Nat) (r : Except TE (PeerId × Conn)) (role : Endpoint)
    (up : Option (UpgradeM Info Conn Output Error (MFut (Except Error Output))))
    (te : TE) (peer i : PeerId) (conn : Conn)
    (f : MFut (Except TE (PeerId × Conn)))
    (m : Nat) (ur : Except Error Output) (name : String)
    (outp : Output) (ue : Error) (ne : NegotiationError) :
    (UpgradeFuture.poll toStr MFut.poll mkD mkL
        ⟨⟨n + 1, r⟩, role, Either.left up⟩
      = Except.ok (Poll.pending, ⟨⟨n, r⟩, role, Either.left up⟩))
    ∧ (UpgradeFuture.poll toStr MFut.poll mkD mkL
        ⟨⟨0, Except.error te⟩, role, Either.left up⟩
      = Except.ok (Poll.ready (Except.error
          (TransportUpgradeError.transport te)),
          ⟨⟨0, Except.error te⟩, role, Either.left up⟩))
    ∧ (UpgradeFuture.poll toStr MFut.poll mkD mkL
        (⟨⟨0, Except.ok (peer, conn)⟩, Endpoint.dialer,
            Either.left (some u)⟩ :
          UpgradeFuture TE Info Conn Output Error (MFut (Except Error Output)))
      = UpgradeFuture.poll toStr MFut.poll mkD mkL
          ⟨⟨0, Except.ok (peer, conn)⟩, Endpoint.dialer,
            Either.right (peer, UpgradeApply.new_outbound mkD conn u)⟩)
    ∧ (UpgradeFuture.poll toStr MFut.poll mkD mkL
        (⟨⟨0, Except.ok (peer, conn)⟩, Endpoint.listener,
            Either.left (some u)⟩ :
          UpgradeFuture TE Info Conn Output Error (MFut (Except Error Output)))
      = UpgradeFuture.poll toStr MFut.poll mkD mkL
          ⟨⟨0, Except.ok (peer, conn)⟩, Endpoint.listener,
            Either.right (peer, UpgradeApply.new_inbound mkL conn u)⟩)
    ∧ (UpgradeFuture.poll toStr MFut.poll mkD mkL
        (⟨f, role, Either.right (i, .upgrade ⟨m + 1, ur⟩ name)⟩ :
          UpgradeFuture TE Info Conn Output Error (MFut (Except Error Output)))
      = Except.ok (Poll.pending,
          ⟨f, role, Either.right (i, .upgrade ⟨m, ur⟩ name)⟩))
    ∧ (UpgradeFuture.poll toStr MFut.poll mkD mkL
        (⟨f, role, Either.right (i, .upgrade ⟨0, Except.ok outp⟩ name)⟩ :
          UpgradeFuture TE Info Conn Output Error (MFut (Except Error Output)))
      = Except.ok (Poll.ready (Except.ok (i, outp)),
          ⟨f, role, Either.right (i, .undefined)⟩))
    ∧ (UpgradeFuture.poll toStr MFut.poll mkD mkL
        (⟨f, role, Either.right (i, .upgrade ⟨0, Except.error ue⟩ name)⟩ :
          UpgradeFuture TE Info Conn Output Error (MFut (Except Error Output)))
      = Except.ok (Poll.ready (Except.error (TransportUpgradeError.upgrade
          (UpgradeError.apply ue))),
          ⟨f, role, Either.right (i, .undefined)⟩))
    ∧ (UpgradeFuture.poll toStr MFut.poll mkD mkL
        ⟨f, role, Either.right (i, .dialerInit ⟨0, Except.error ne⟩ u)⟩
      = Except.ok (Poll.ready (Except.error (TransportUpgradeError.upgrade
          (UpgradeError.select ne))),
          ⟨f, role, Either.right (i, .undefined)⟩)) :=
  ⟨rfl, rfl, rfl, rfl, rfl, rfl, rfl, rfl⟩

end Airio
